import Mathlib

/-!
Shallow embedding of the IDKG / threshold-ECDSA orchestration layer of the
repository: the vault operations of
`rs/crypto/internal/crypto_service_provider/src/vault/local_csp_vault/idkg/mod.rs`
and the facade operations of
`rs/crypto/internal/crypto_service_provider/src/canister_threshold/mod.rs`.

The stateless primitive library (`ic_crypto_internal_threshold_sig_ecdsa`),
the serialization conversions (`TryFrom`) and the key-id hash functions are
external to the sources; they are modelled as fields of an environment
structure `Env`, so every theorem below quantifies over all possible
behaviours of the primitive library.  The vault state (the two secret key
stores and the RNG) is threaded explicitly; one RNG draw is modelled as
reading the next element of a deterministic seed stream and advancing a
counter.
-/

namespace IC

/-- Node index (`ic_types::NodeIndex`, a `u32` in the sources; indices are
only passed through here, so `Nat` models it). -/
abbrev NodeIndex := Nat

/-- Reconstruction threshold (`ic_types::NumberOfNodes`). -/
abbrev NumberOfNodes := Nat

/-- Key-store identifier (`ic_types::crypto::KeyId`, a 32-byte hash value in
the sources; modelled as `Nat`, produced only by the hash functions of the
environment). -/
abbrev KeyId := Nat

/-- A `BTreeMap<NodeIndex, α>` passed through the layer, modelled as an
association list.  `BTreeMap::new()` is `[]`. -/
abbrev NodeMap (α : Type) := List (NodeIndex × α)

/-- Algorithm identifiers (`ic_types::crypto::AlgorithmId`).  The real enum
has further variants; only `ThresholdEcdsaSecp256k1` is accepted by
`idkg_gen_mega_key_pair`, every other variant takes the wildcard branch, so
a representative subset suffices. -/
inductive AlgorithmId
  | Placeholder
  | MultiBls12_381
  | ThresBls12_381
  | Ed25519
  | EcdsaP256
  | EcdsaSecp256k1
  | ThresholdEcdsaSecp256k1
deriving DecidableEq, Repr

/-- Elliptic curve type of the primitive library (`EccCurveType`). -/
inductive EccCurveType
  | K256
  | P256
deriving DecidableEq, Repr

/-- Bundle of the opaque data types handled by the layer.  The orchestration
code never inspects values of these types; it only moves them between the
stores and the primitive library. -/
structure Ty : Type 1 where
  /-- `PolynomialCommitment` -/
  C : Type
  /-- `IDkgDealingInternal` -/
  D : Type
  /-- `CommitmentOpening` (the primitive library's in-memory form) -/
  O : Type
  /-- `CommitmentOpeningBytes` (the persisted form) -/
  OB : Type
  /-- `MEGaPublicKey` -/
  PK : Type
  /-- `MEGaPrivateKey` -/
  SK : Type
  /-- `MEGaPublicKeyK256Bytes` -/
  PKB : Type
  /-- `MEGaPrivateKeyK256Bytes` -/
  SKB : Type
  /-- `Randomness` / `Seed`: one 32-byte draw from the RNG -/
  Seed : Type
  /-- payload of the non-`Random` variants of the library's `SecretShares` -/
  SSP : Type
  /-- `IDkgComplaintInternal` -/
  Cmpl : Type

/-- `CombinedCommitment` of a transcript: `BySummation` or `ByInterpolation`,
each wrapping a `PolynomialCommitment`; `commitment()` extracts it. -/
inductive CombinedCommitment (τ : Ty)
  | BySummation (c : τ.C)
  | ByInterpolation (c : τ.C)

/-- The accessor `CombinedCommitment::commitment`. -/
def CombinedCommitment.commitment {τ : Ty} : CombinedCommitment τ → τ.C
  | .BySummation c => c
  | .ByInterpolation c => c

/-- `IDkgTranscriptInternal`: the layer only reads its combined commitment. -/
structure IDkgTranscriptInternal (τ : Ty) where
  combined_commitment : CombinedCommitment τ

/-- `IDkgTranscriptOperationInternal`. -/
inductive IDkgTranscriptOperationInternal (τ : Ty)
  | Random
  | ReshareOfMasked (c : τ.C)
  | ReshareOfUnmasked (c : τ.C)
  | UnmaskedTimesMasked (c₁ c₂ : τ.C)

/-- The primitive library's `SecretShares`.  Its `TryFrom` conversion from
commitment-opening bytes only ever builds the non-`Random` variants
(`ReshareOfUnmasked` / `ReshareOfMasked` / `UnmaskedTimesMasked`), collapsed
here into `Shares` with an opaque payload. -/
inductive SecretShares (τ : Ty)
  | Random
  | Shares (v : τ.SSP)

/-- `MEGaKeySetK256Bytes`: the serialized key pair as stored. -/
structure MEGaKeySetK256Bytes (τ : Ty) where
  public_key : τ.PKB
  private_key : τ.SKB

/-- `CspSecretKey`: the store's value type.  The real enum has many further
variants (Ed25519, TLS, BLS, ...); they all take the wildcard branch of the
two lookup helpers, so they are collapsed into `OtherVariant`. -/
inductive CspSecretKey (τ : Ty)
  | IDkgCommitmentOpening (bytes : τ.OB)
  | MEGaEncryptionK256 (keyset : MEGaKeySetK256Bytes τ)
  | OtherVariant (tag : Nat)

/-- `IDkgComputeSecretSharesInternalError` of the primitive library. -/
inductive IDkgComputeSecretSharesInternalError
  | InconsistentCommitments
  | InternalError (e : String)
deriving DecidableEq, Repr

/-- `IDkgCreateDealingError`.  In the sources `SecretSharesNotFound` carries
`format!("{:?}", commitment)`; the commitment itself is carried here. -/
inductive IDkgCreateDealingError (τ : Ty)
  | SecretSharesNotFound (commitment_string : τ.C)
  | InternalError (internal_error : String)

/-- `IDkgLoadTranscriptError` (the variants used by this layer). -/
inductive IDkgLoadTranscriptError
  | PrivateKeyNotFound
  | SerializationError (internal_error : String)
  | InvalidArguments (internal_error : String)
  | InternalError (internal_error : String)
deriving DecidableEq, Repr

/-- `IDkgOpenTranscriptError` (the variants used by this layer). -/
inductive IDkgOpenTranscriptError
  | PrivateKeyNotFound (key_id : KeyId)
  | InternalError (internal_error : String)
deriving DecidableEq, Repr

/-- `CspCreateMEGaKeyError`.  The wrapped library errors are modelled by
their diagnostic strings. -/
inductive CspCreateMEGaKeyError
  | FailedKeyGeneration (e : String)
  | SerializationError (e : String)
  | UnsupportedAlgorithm (algorithm_id : AlgorithmId)
deriving DecidableEq, Repr

/-- `IDkgCreateTranscriptError` (the variant used by the facade). -/
inductive IDkgCreateTranscriptError
  | InternalError (internal_error : String)
deriving DecidableEq, Repr

/-- Rust's `format!("{:?}", e)` applied to a `String` value `e` (the sources
apply it to the payload of `IDkgComputeSecretSharesInternalError::InternalError`
in `idkg_load_transcript`): `Debug` for `String` quotes it. -/
def rustDebugFmt (s : String) : String := "\"" ++ s ++ "\""

/-- The environment: the stateless primitive library, the serialization
conversions and the key-id hash functions.  All of these are external to the
sources (`ic_crypto_internal_threshold_sig_ecdsa`, the `TryFrom` impls and
the `keygen` module); each field models one called function, with library
errors represented by their `Debug`-formatted diagnostic string (so the
`map_err(|e| ... format!("{:?}", e))` wrappers in the sources carry the
string through unchanged). -/
structure Env (τ : Ty) where
  /-- `commitment_key_id`: the domain-separated hash of a commitment's CBOR
  serialization (the `expect` on the CBOR step of the sources is modelled as
  total: serialization of a commitment cannot fail). -/
  commitment_key_id : τ.C → KeyId
  /-- `mega_key_id` (from the `keygen` module, external to the sources). -/
  mega_key_id : τ.PK → KeyId
  /-- the CSPRNG as a deterministic stream: draw `n` returns `rngSeq n`. -/
  rngSeq : Nat → τ.Seed
  /-- `compute_secret_shares(dealings, transcript, context, receiver_index,
  private_key, public_key)`. -/
  compute_secret_shares :
    NodeMap τ.D → IDkgTranscriptInternal τ → List Nat → NodeIndex → τ.SK → τ.PK →
      Except IDkgComputeSecretSharesInternalError τ.O
  /-- `compute_secret_shares_with_openings(dealings, openings, transcript,
  context, receiver_index, private_key, public_key)`. -/
  compute_secret_shares_with_openings :
    NodeMap τ.D → NodeMap (NodeMap τ.O) → IDkgTranscriptInternal τ → List Nat →
      NodeIndex → τ.SK → τ.PK → Except IDkgComputeSecretSharesInternalError τ.O
  /-- `generate_complaints(dealings, context, receiver_index, private_key,
  public_key, seed)`; the error is already converted into
  `IDkgLoadTranscriptError` by the `From` instance applied at the `?`. -/
  generate_complaints :
    NodeMap τ.D → List Nat → NodeIndex → τ.SK → τ.PK → τ.Seed →
      Except IDkgLoadTranscriptError (NodeMap τ.Cmpl)
  /-- `gen_keypair(curve_type, seed)`. -/
  gen_keypair : EccCurveType → τ.Seed → Except String (τ.PK × τ.SK)
  /-- `create_dealing(algorithm_id, context, dealer_index, threshold,
  receiver_keys, shares, seed)`. -/
  create_dealing :
    AlgorithmId → List Nat → NodeIndex → NumberOfNodes → List τ.PK →
      SecretShares τ → τ.Seed → Except String τ.D
  /-- `create_transcript(algorithm_id, threshold, verified_dealings,
  operation_mode)`. -/
  create_transcript :
    AlgorithmId → NumberOfNodes → NodeMap τ.D → IDkgTranscriptOperationInternal τ →
      Except String (IDkgTranscriptInternal τ)
  /-- `open_dealing(dealing, context, dealer_index, opener_index,
  opener_private_key, opener_public_key)`. -/
  open_dealing :
    τ.D → List Nat → NodeIndex → NodeIndex → τ.SK → τ.PK → Except String τ.O
  /-- `CommitmentOpeningBytes::try_from(&opening)`. -/
  commitment_opening_bytes_try_from : τ.O → Except String τ.OB
  /-- `SecretShares::try_from((&bytes, opt_bytes))`: builds the non-`Random`
  variant matching the opening types. -/
  secret_shares_try_from : τ.OB → Option τ.OB → Except String τ.SSP
  /-- `MEGaPublicKeyK256Bytes::try_from(&public_key)`. -/
  mega_public_key_bytes_try_from : τ.PK → Except String τ.PKB
  /-- `MEGaPrivateKeyK256Bytes::try_from(&private_key)`. -/
  mega_private_key_bytes_try_from : τ.SK → Except String τ.SKB
  /-- `MEGaPublicKey::try_from(&keyset_bytes.public_key)`. -/
  mega_public_key_try_from : τ.PKB → Except String τ.PK
  /-- `MEGaPrivateKey::try_from(&keyset_bytes.private_key)`. -/
  mega_private_key_try_from : τ.SKB → Except String τ.SK

/-- The vault state `LocalCspVault<R, S, C>`: the node secret key store `S`,
the canister-scoped secret key store `C` (each a mapping from key id to
stored secret) and the CSPRNG `R`, represented by the number of draws made
so far (draw `n` yields `Env.rngSeq n`). -/
structure LocalCspVault (τ : Ty) where
  sks : KeyId → Option (CspSecretKey τ)
  canister_sks : KeyId → Option (CspSecretKey τ)
  rng_ctr : Nat

/-- Outcome of one vault operation: a successful return, a typed error
return (each with the resulting state), or a process abort (`panic`). -/
inductive VaultResult (τ : Ty) (ε α : Type)
  | ok (a : α) (s : LocalCspVault τ)
  | err (e : ε) (s : LocalCspVault τ)
  | panic (msg : String)

/-- The stores of the final state, when the operation did not abort (the RNG
counter is deliberately not part of this projection). -/
def VaultResult.finalStores {τ : Ty} {ε α : Type} :
    VaultResult τ ε α → Option ((KeyId → Option (CspSecretKey τ)) × (KeyId → Option (CspSecretKey τ)))
  | .ok _ s => some (s.sks, s.canister_sks)
  | .err _ s => some (s.sks, s.canister_sks)
  | .panic _ => none

/-- One draw from the CSPRNG (`self.rng_write_lock().gen::<[u8; 32]>()` or
`Seed::from_rng(&mut *self.csprng.write())`): returns the next seed of the
stream and advances the draw counter. -/
def drawSeed {τ : Ty} (env : Env τ) (s : LocalCspVault τ) : τ.Seed × LocalCspVault τ :=
  (env.rngSeq s.rng_ctr, { s with rng_ctr := s.rng_ctr + 1 })

/-- Modelled from the spec: `store_canister_secret_key_or_panic` (the body is
not among the sources).  The spec treats an insert of a commitment opening
under an existing identifier as a safe no-op/duplicate given the
content-addressing invariant, so the canister store insert is a plain update
of the mapping. -/
def store_canister_secret_key {τ : Ty} (s : LocalCspVault τ)
    (csp_secret_key : CspSecretKey τ) (key_id : KeyId) : LocalCspVault τ :=
  { s with canister_sks := fun k => if k = key_id then some csp_secret_key else s.canister_sks k }

/-- Modelled from the spec: `store_secret_key_or_panic` (the body is not
among the sources).  The spec treats an insert of a key pair under an
existing identifier as a programming-error-level failure that aborts the
process, so the insert yields `none` (abort) when the identifier is already
present and the updated store otherwise. -/
def store_secret_key_or_abort {τ : Ty} (s : LocalCspVault τ)
    (csp_secret_key : CspSecretKey τ) (key_id : KeyId) : Option (LocalCspVault τ) :=
  match s.sks key_id with
  | some _ => none
  | none => some { s with sks := fun k => if k = key_id then some csp_secret_key else s.sks k }

/-- `LocalCspVault::commitment_opening_from_sks`: look up the canister store
under the derived commitment key id; only an `IDkgCommitmentOpening` entry
counts, every other outcome (absent, or a different variant) is
`SecretSharesNotFound` identifying the commitment. -/
def commitment_opening_from_sks {τ : Ty} (env : Env τ) (s : LocalCspVault τ)
    (commitment : τ.C) : Except (IDkgCreateDealingError τ) τ.OB :=
  let key_id := env.commitment_key_id commitment
  match s.canister_sks key_id with
  | some (.IDkgCommitmentOpening bytes) => .ok bytes
  | _ => .error (.SecretSharesNotFound commitment)

/-- `LocalCspVault::mega_keyset_from_sks`: look up the node store under the
given key id; only a `MEGaEncryptionK256` entry counts, every other outcome
is `PrivateKeyNotFound`; a found key set is deserialized, each conversion
failure becoming a `SerializationError`. -/
def mega_keyset_from_sks {τ : Ty} (env : Env τ) (s : LocalCspVault τ)
    (key_id : KeyId) : Except IDkgLoadTranscriptError (τ.PK × τ.SK) :=
  match s.sks key_id with
  | some (.MEGaEncryptionK256 keyset_bytes) =>
    match env.mega_public_key_try_from keyset_bytes.public_key with
    | .error e => .error (.SerializationError e)
    | .ok public_key =>
      match env.mega_private_key_try_from keyset_bytes.private_key with
      | .error e => .error (.SerializationError e)
      | .ok private_key => .ok (public_key, private_key)
  | _ => .error .PrivateKeyNotFound

/-- `LocalCspVault::get_secret_shares`: resolve a transcript operation into
a `SecretShares` value.  `Random` needs no lookup; `ReshareOfUnmasked` /
`ReshareOfMasked` fetch one stored opening; `UnmaskedTimesMasked` fetches
two (first commitment first). -/
def get_secret_shares {τ : Ty} (env : Env τ) (s : LocalCspVault τ)
    (transcript_operation : IDkgTranscriptOperationInternal τ) :
    Except (IDkgCreateDealingError τ) (SecretShares τ) :=
  match transcript_operation with
  | .Random => .ok .Random
  | .ReshareOfUnmasked commitment | .ReshareOfMasked commitment =>
    match commitment_opening_from_sks env s commitment with
    | .error e => .error e
    | .ok secret_share_bytes =>
      match env.secret_shares_try_from secret_share_bytes none with
      | .ok v => .ok (.Shares v)
      | .error e => .error (.InternalError e)
  | .UnmaskedTimesMasked commitment_1 commitment_2 =>
    match commitment_opening_from_sks env s commitment_1 with
    | .error e => .error e
    | .ok unmasked_share_bytes =>
      match commitment_opening_from_sks env s commitment_2 with
      | .error e => .error e
      | .ok masked_share_bytes =>
        match env.secret_shares_try_from unmasked_share_bytes (some masked_share_bytes) with
        | .ok v => .ok (.Shares v)
        | .error e => .error (.InternalError e)

/-- `idkg_create_dealing`: draw a fresh seed, resolve the transcript
operation into secret shares, then delegate to the primitive library's
`create_dealing`; library failures become opaque `InternalError`s. -/
def idkg_create_dealing {τ : Ty} (env : Env τ) (s : LocalCspVault τ)
    (algorithm_id : AlgorithmId) (context_data : List Nat) (dealer_index : NodeIndex)
    (reconstruction_threshold : NumberOfNodes) (receiver_keys : List τ.PK)
    (transcript_operation : IDkgTranscriptOperationInternal τ) :
    VaultResult τ (IDkgCreateDealingError τ) τ.D :=
  let (seed, s') := drawSeed env s
  match get_secret_shares env s' transcript_operation with
  | .error e => .err e s'
  | .ok tecdsa_shares =>
    match env.create_dealing algorithm_id context_data dealer_index
        reconstruction_threshold receiver_keys tecdsa_shares seed with
    | .ok dealing => .ok dealing s'
    | .error e => .err (.InternalError e) s'

/-- `idkg_load_transcript`: short-circuit when an opening for the combined
commitment is already stored; otherwise fetch the key set, compute this
receiver's secret share, and either store the serialized opening (empty
complaint set), generate complaints on `InconsistentCommitments` (one fresh
seed draw, no store write), or surface an `InternalError`. -/
def idkg_load_transcript {τ : Ty} (env : Env τ) (s : LocalCspVault τ)
    (dealings : NodeMap τ.D) (context_data : List Nat) (receiver_index : NodeIndex)
    (key_id : KeyId) (transcript : IDkgTranscriptInternal τ) :
    VaultResult τ IDkgLoadTranscriptError (NodeMap τ.Cmpl) :=
  match commitment_opening_from_sks env s transcript.combined_commitment.commitment with
  | .ok _ => .ok [] s
  | .error _ =>
    match mega_keyset_from_sks env s key_id with
    | .error e => .err e s
    | .ok (public_key, private_key) =>
      match env.compute_secret_shares dealings transcript context_data receiver_index
          private_key public_key with
      | .ok opening =>
        match env.commitment_opening_bytes_try_from opening with
        | .error e => .err (.SerializationError e) s
        | .ok opening_bytes =>
          .ok [] (store_canister_secret_key s (.IDkgCommitmentOpening opening_bytes)
            (env.commitment_key_id transcript.combined_commitment.commitment))
      | .error .InconsistentCommitments =>
        let (seed, s') := drawSeed env s
        match env.generate_complaints dealings context_data receiver_index
            private_key public_key seed with
        | .ok complaints => .ok complaints s'
        | .error e => .err e s'
      | .error (.InternalError e) => .err (.InternalError (rustDebugFmt e)) s

/-- `idkg_load_transcript_with_openings`: same short-circuit as
`idkg_load_transcript`; the share is computed with the supplied openings; a
still-inconsistent result becomes `InvalidArguments` with a fixed message,
and (as the sources have it) a library `InternalError(e)` also becomes
`InvalidArguments` carrying `e`. -/
def idkg_load_transcript_with_openings {τ : Ty} (env : Env τ) (s : LocalCspVault τ)
    (dealings : NodeMap τ.D) (openings : NodeMap (NodeMap τ.O)) (context_data : List Nat)
    (receiver_index : NodeIndex) (key_id : KeyId) (transcript : IDkgTranscriptInternal τ) :
    VaultResult τ IDkgLoadTranscriptError Unit :=
  match commitment_opening_from_sks env s transcript.combined_commitment.commitment with
  | .ok _ => .ok () s
  | .error _ =>
    match mega_keyset_from_sks env s key_id with
    | .error e => .err e s
    | .ok (public_key, private_key) =>
      match env.compute_secret_shares_with_openings dealings openings transcript
          context_data receiver_index private_key public_key with
      | .ok opening =>
        match env.commitment_opening_bytes_try_from opening with
        | .error e => .err (.SerializationError e) s
        | .ok opening_bytes =>
          .ok () (store_canister_secret_key s (.IDkgCommitmentOpening opening_bytes)
            (env.commitment_key_id transcript.combined_commitment.commitment))
      | .error .InconsistentCommitments =>
        .err (.InvalidArguments "failed to compute secret shares with the provided openings") s
      | .error (.InternalError e) => .err (.InvalidArguments e) s

/-- `idkg_gen_mega_key_pair`: draw a fresh seed, then dispatch on the
algorithm id (`ThresholdEcdsaSecp256k1` generates a K256 key pair, every
other id is `UnsupportedAlgorithm`); serialize both halves, then store the
key set under the hashed public key, aborting on a duplicate identifier. -/
def idkg_gen_mega_key_pair {τ : Ty} (env : Env τ) (s : LocalCspVault τ)
    (algorithm_id : AlgorithmId) : VaultResult τ CspCreateMEGaKeyError τ.PK :=
  let (seed, s') := drawSeed env s
  match (match algorithm_id with
    | AlgorithmId.ThresholdEcdsaSecp256k1 =>
      (env.gen_keypair .K256 seed).mapError CspCreateMEGaKeyError.FailedKeyGeneration
    | _ => .error (.UnsupportedAlgorithm algorithm_id) :
      Except CspCreateMEGaKeyError (τ.PK × τ.SK)) with
  | .error e => .err e s'
  | .ok (public_key, private_key) =>
    match env.mega_public_key_bytes_try_from public_key with
    | .error e => .err (.SerializationError e) s'
    | .ok public_key_bytes =>
      match env.mega_private_key_bytes_try_from private_key with
      | .error e => .err (.SerializationError e) s'
      | .ok private_key_bytes =>
        match store_secret_key_or_abort s'
            (.MEGaEncryptionK256 ⟨public_key_bytes, private_key_bytes⟩)
            (env.mega_key_id public_key) with
        | none => .panic "store_secret_key_or_panic: duplicate key id"
        | some s'' => .ok public_key s''

/-- `idkg_open_dealing`: look up the opener's key set (`PrivateKeyNotFound`
mapped to the dedicated variant carrying the key id, any other lookup
failure to `InternalError`), then delegate to the primitive library's
`open_dealing`. -/
def idkg_open_dealing {τ : Ty} (env : Env τ) (s : LocalCspVault τ)
    (dealing : τ.D) (dealer_index : NodeIndex) (context_data : List Nat)
    (opener_index : NodeIndex) (opener_key_id : KeyId) :
    VaultResult τ IDkgOpenTranscriptError τ.O :=
  match mega_keyset_from_sks env s opener_key_id with
  | .error IDkgLoadTranscriptError.PrivateKeyNotFound =>
    .err (.PrivateKeyNotFound opener_key_id) s
  | .error e => .err (.InternalError (toString (repr e))) s
  | .ok (opener_public_key, opener_private_key) =>
    match env.open_dealing dealing context_data dealer_index opener_index
        opener_private_key opener_public_key with
    | .ok opening => .ok opening s
    | .error e => .err (.InternalError e) s

/-- The facade's `idkg_create_transcript` (`canister_threshold/mod.rs`):
direct delegation to the primitive library's `create_transcript`, wrapping a
library failure in `IDkgCreateTranscriptError::InternalError`; the vault
state is carried by the `Csp` but neither read nor written. -/
def idkg_create_transcript {τ : Ty} (env : Env τ) (s : LocalCspVault τ)
    (algorithm_id : AlgorithmId) (reconstruction_threshold : NumberOfNodes)
    (verified_dealings : NodeMap τ.D)
    (operation_mode : IDkgTranscriptOperationInternal τ) :
    Except IDkgCreateTranscriptError (IDkgTranscriptInternal τ) × LocalCspVault τ :=
  ((env.create_transcript algorithm_id reconstruction_threshold verified_dealings
      operation_mode).mapError (fun e => .InternalError e), s)

/-! ### A concrete instantiation

Used to evaluate the operations on explicit inputs: every opaque type is
`Nat` and the primitive library is instantiated with trivial total
behaviours (overridden pointwise where a failing library call is needed). -/

/-- All opaque types instantiated by `Nat`. -/
abbrev τ0 : Ty :=
  { C := Nat, D := Nat, O := Nat, OB := Nat, PK := Nat, SK := Nat, PKB := Nat,
    SKB := Nat, Seed := Nat, SSP := Nat, Cmpl := Nat }

/-- A benign environment: identity hashes, identity seed stream, all library
calls succeeding with small constants. -/
def env0 : Env τ0 where
  commitment_key_id := fun c => c
  mega_key_id := fun pk => pk
  rngSeq := fun n => n
  compute_secret_shares := fun _ _ _ _ _ _ => .ok 7
  compute_secret_shares_with_openings := fun _ _ _ _ _ _ _ => .ok 7
  generate_complaints := fun _ _ _ _ _ _ => .ok []
  gen_keypair := fun _ seed => .ok (seed, seed)
  create_dealing := fun _ _ _ _ _ _ _ => .ok 5
  create_transcript := fun _ _ _ _ => .ok ⟨.BySummation 3⟩
  open_dealing := fun _ _ _ _ _ _ => .ok 9
  commitment_opening_bytes_try_from := fun o => .ok o
  secret_shares_try_from := fun b _ => .ok b
  mega_public_key_bytes_try_from := fun k => .ok k
  mega_private_key_bytes_try_from := fun k => .ok k
  mega_public_key_try_from := fun k => .ok k
  mega_private_key_try_from := fun k => .ok k

/-- Empty stores, no RNG draw made yet. -/
def s0 : LocalCspVault τ0 :=
  { sks := fun _ => none, canister_sks := fun _ => none, rng_ctr := 0 }

/-- A transcript whose combined commitment is the value `5`. -/
def t0 : IDkgTranscriptInternal τ0 := ⟨.BySummation 5⟩

/-- Canister store already holding the commitment opening `11` under key
id `5` (the id `env0` derives for commitment `5`). -/
def sStored : LocalCspVault τ0 :=
  { s0 with canister_sks :=
      fun k => if k = 5 then some (CspSecretKey.IDkgCommitmentOpening 11) else none }

/-- Node store holding the MEGa key set `(1, 2)` under key id `17`. -/
def sKeyset : LocalCspVault τ0 :=
  { s0 with sks :=
      fun k => if k = 17 then some (CspSecretKey.MEGaEncryptionK256 ⟨1, 2⟩) else none }

/-- Both stores holding wrong-variant entries: the canister store a key set
under key id `5`, the node store a commitment opening under key id `17`. -/
def sWrong : LocalCspVault τ0 :=
  { sks := fun k => if k = 17 then some (CspSecretKey.IDkgCommitmentOpening 11) else none,
    canister_sks :=
      fun k => if k = 5 then some (CspSecretKey.MEGaEncryptionK256 ⟨1, 2⟩) else none,
    rng_ctr := 0 }

/-- Node store already occupied under key id `0`, the id `env0` derives for
the public key that `env0.gen_keypair` produces from seed `0`. -/
def sDup : LocalCspVault τ0 :=
  { s0 with sks := fun k => if k = 0 then some (CspSecretKey.OtherVariant 99) else none }

/-- Environment whose share computation detects a cross-dealer
inconsistency and whose complaint generation yields one complaint against
dealer `2`. -/
def envInc : Env τ0 :=
  { env0 with
    compute_secret_shares := fun _ _ _ _ _ _ => .error .InconsistentCommitments
    generate_complaints := fun _ _ _ _ _ _ => .ok [(2, 9)] }

/-- Environment whose share computation with openings is still
inconsistent. -/
def envIncW : Env τ0 :=
  { env0 with
    compute_secret_shares_with_openings := fun _ _ _ _ _ _ _ =>
      .error .InconsistentCommitments }

/-- Environment whose share computation with openings fails with a
non-consistency library error. -/
def envIntW : Env τ0 :=
  { env0 with
    compute_secret_shares_with_openings := fun _ _ _ _ _ _ _ =>
      .error (.InternalError "boom") }

/-- Environment whose key-pair generation fails. -/
def envGenFail : Env τ0 :=
  { env0 with gen_keypair := fun _ _ => .error "ec fail" }

/-! ### Helper lemmas -/

theorem commitment_opening_from_sks_of_stored {τ : Ty} (env : Env τ) (s : LocalCspVault τ)
    (c : τ.C) (b : τ.OB)
    (h : s.canister_sks (env.commitment_key_id c) =
      some (CspSecretKey.IDkgCommitmentOpening b)) :
    commitment_opening_from_sks env s c = .ok b := by
  simp [commitment_opening_from_sks, h]

theorem commitment_opening_from_sks_of_not_stored {τ : Ty} (env : Env τ)
    (s : LocalCspVault τ) (c : τ.C)
    (h : ∀ b, s.canister_sks (env.commitment_key_id c) ≠
      some (CspSecretKey.IDkgCommitmentOpening b)) :
    commitment_opening_from_sks env s c = .error (.SecretSharesNotFound c) := by
  simp only [commitment_opening_from_sks]

theorem mega_keyset_from_sks_of_absent {τ : Ty} (env : Env τ) (s : LocalCspVault τ)
    (key_id : KeyId)
    (h : ∀ ks, s.sks key_id ≠ some (CspSecretKey.MEGaEncryptionK256 ks)) :
    mega_keyset_from_sks env s key_id = .error .PrivateKeyNotFound := by
  simp only [mega_keyset_from_sks]

theorem idkg_load_transcript_err_stores_unchanged {τ : Ty} (env : Env τ)
    (s : LocalCspVault τ) (dealings : NodeMap τ.D) (context_data : List Nat)
    (receiver_index : NodeIndex) (key_id : KeyId) (t : IDkgTranscriptInternal τ)
    (e : IDkgLoadTranscriptError) (s' : LocalCspVault τ)
    (h : idkg_load_transcript env s dealings context_data receiver_index key_id t
      = .err e s') :
    s'.sks = s.sks ∧ s'.canister_sks = s.canister_sks := by
  simp only [idkg_load_transcript, drawSeed] at h
  repeat' split at h
  all_goals cases h
  all_goals exact ⟨rfl, rfl⟩

theorem idkg_load_transcript_with_openings_err_stores_unchanged {τ : Ty} (env : Env τ)
    (s : LocalCspVault τ) (dealings : NodeMap τ.D) (openings : NodeMap (NodeMap τ.O))
    (context_data : List Nat) (receiver_index : NodeIndex) (key_id : KeyId)
    (t : IDkgTranscriptInternal τ) (e : IDkgLoadTranscriptError) (s' : LocalCspVault τ)
    (h : idkg_load_transcript_with_openings env s dealings openings context_data
      receiver_index key_id t = .err e s') :
    s'.sks = s.sks ∧ s'.canister_sks = s.canister_sks := by
  simp only [idkg_load_transcript_with_openings, drawSeed] at h
  repeat' split at h
  all_goals cases h
  all_goals exact ⟨rfl, rfl⟩

theorem idkg_create_dealing_err_stores_unchanged {τ : Ty} (env : Env τ)
    (s : LocalCspVault τ) (algorithm_id : AlgorithmId) (context_data : List Nat)
    (dealer_index : NodeIndex) (reconstruction_threshold : NumberOfNodes)
    (receiver_keys : List τ.PK) (op : IDkgTranscriptOperationInternal τ)
    (e : IDkgCreateDealingError τ) (s' : LocalCspVault τ)
    (h : idkg_create_dealing env s algorithm_id context_data dealer_index
      reconstruction_threshold receiver_keys op = .err e s') :
    s'.sks = s.sks ∧ s'.canister_sks = s.canister_sks := by
  simp only [idkg_create_dealing, drawSeed] at h
  repeat' split at h
  all_goals cases h
  all_goals exact ⟨rfl, rfl⟩

theorem idkg_gen_mega_key_pair_err_stores_unchanged {τ : Ty} (env : Env τ)
    (s : LocalCspVault τ) (algorithm_id : AlgorithmId) (e : CspCreateMEGaKeyError)
    (s' : LocalCspVault τ)
    (h : idkg_gen_mega_key_pair env s algorithm_id = .err e s') :
    s'.sks = s.sks ∧ s'.canister_sks = s.canister_sks := by
  simp only [idkg_gen_mega_key_pair, drawSeed, store_secret_key_or_abort] at h
  repeat' split at h
  all_goals cases h
  all_goals exact ⟨rfl, rfl⟩

/-! ### Claim theorems -/

/-- C1: Idempotent transcript load.  When the combined commitment of a
transcript already has a commitment opening stored in the canister secret
key store, `idkg_load_transcript` returns an empty complaint set with the
state unchanged (and `idkg_load_transcript_with_openings` returns unit with
the state unchanged), and the result does not depend on the primitive
library, on the share computation, or on the node key store; consequently a
first successful load stores the opening under the commitment's key id and
a second load of the same transcript returns an empty complaint set leaving
the state — hence exactly the one stored opening — unchanged. -/
theorem idkg_load_transcript_idempotent {τ : Ty} (env : Env τ)
    (dealings : NodeMap τ.D) (openings : NodeMap (NodeMap τ.O)) (context_data : List Nat)
    (receiver_index : NodeIndex) (key_id : KeyId) (t : IDkgTranscriptInternal τ)
    (s : LocalCspVault τ) (pk : τ.PK) (sk : τ.SK) (opening : τ.O) (opening_bytes : τ.OB) :
    (∀ b, s.canister_sks (env.commitment_key_id t.combined_commitment.commitment) =
        some (CspSecretKey.IDkgCommitmentOpening b) →
      idkg_load_transcript env s dealings context_data receiver_index key_id t = .ok [] s ∧
      idkg_load_transcript_with_openings env s dealings openings context_data receiver_index
        key_id t = .ok () s ∧
      (∀ env' : Env τ,
        env'.commitment_key_id t.combined_commitment.commitment =
          env.commitment_key_id t.combined_commitment.commitment →
        idkg_load_transcript env' s dealings context_data receiver_index key_id t
          = .ok [] s) ∧
      (∀ sks' : KeyId → Option (CspSecretKey τ),
        idkg_load_transcript env { s with sks := sks' } dealings context_data receiver_index
          key_id t = .ok [] { s with sks := sks' })) ∧
    ((∀ b, s.canister_sks (env.commitment_key_id t.combined_commitment.commitment) ≠
        some (CspSecretKey.IDkgCommitmentOpening b)) →
      mega_keyset_from_sks env s key_id = .ok (pk, sk) →
      env.compute_secret_shares dealings t context_data receiver_index sk pk = .ok opening →
      env.commitment_opening_bytes_try_from opening = .ok opening_bytes →
      idkg_load_transcript env s dealings context_data receiver_index key_id t =
        .ok [] (store_canister_secret_key s (.IDkgCommitmentOpening opening_bytes)
          (env.commitment_key_id t.combined_commitment.commitment)) ∧
      (store_canister_secret_key s (.IDkgCommitmentOpening opening_bytes)
          (env.commitment_key_id t.combined_commitment.commitment)).canister_sks
          (env.commitment_key_id t.combined_commitment.commitment) =
        some (CspSecretKey.IDkgCommitmentOpening opening_bytes) ∧
      idkg_load_transcript env
        (store_canister_secret_key s (.IDkgCommitmentOpening opening_bytes)
          (env.commitment_key_id t.combined_commitment.commitment))
        dealings context_data receiver_index key_id t =
        .ok [] (store_canister_secret_key s (.IDkgCommitmentOpening opening_bytes)
          (env.commitment_key_id t.combined_commitment.commitment))) := by
  constructor
  · intro b hb
    refine ⟨?_, ?_, ?_, ?_⟩
    · simp only [idkg_load_transcript, commitment_opening_from_sks_of_stored env s _ b hb]
    · simp only [idkg_load_transcript_with_openings,
        commitment_opening_from_sks_of_stored env s _ b hb]
    · intro env' henv
      have hb' : s.canister_sks (env'.commitment_key_id t.combined_commitment.commitment) =
          some (CspSecretKey.IDkgCommitmentOpening b) := by rw [henv]; exact hb
      simp only [idkg_load_transcript, commitment_opening_from_sks_of_stored env' s _ b hb']
    · intro sks'
      simp only [idkg_load_transcript,
        commitment_opening_from_sks_of_stored env { s with sks := sks' } _ b hb]
  · intro hnone hkeyset hcompute hser
    have hc := commitment_opening_from_sks_of_not_stored env s _ hnone
    have hb' : (store_canister_secret_key s (.IDkgCommitmentOpening opening_bytes)
        (env.commitment_key_id t.combined_commitment.commitment)).canister_sks
        (env.commitment_key_id t.combined_commitment.commitment) =
        some (CspSecretKey.IDkgCommitmentOpening opening_bytes) := by
      simp [store_canister_secret_key]
    refine ⟨?_, hb', ?_⟩
    · simp only [idkg_load_transcript, hc, hkeyset, hcompute, hser]
    · simp only [idkg_load_transcript,
        commitment_opening_from_sks_of_stored env _ _ opening_bytes hb']

/-- Witness for C1: with the opening `11` already stored, both loads
short-circuit; starting from an empty canister store, a first load stores
the opening and the second returns an empty complaint set unchanged. -/
theorem idkg_load_transcript_idempotent_witness :
    (idkg_load_transcript env0 sStored [] [] 0 0 t0 = .ok [] sStored) ∧
    (idkg_load_transcript env0 sKeyset [] [] 0 17 t0 =
      .ok [] (store_canister_secret_key sKeyset (.IDkgCommitmentOpening 7) 5)) ∧
    (idkg_load_transcript env0
        (store_canister_secret_key sKeyset (.IDkgCommitmentOpening 7) 5) [] [] 0 17 t0 =
      .ok [] (store_canister_secret_key sKeyset (.IDkgCommitmentOpening 7) 5)) :=
  ⟨((idkg_load_transcript_idempotent env0 [] [] [] 0 0 t0 sStored 0 0 0 0).1 11 rfl).1,
   (((idkg_load_transcript_idempotent env0 [] [] [] 0 17 t0 sKeyset 1 2 7 7).2
      (fun _ hb => Option.noConfusion hb) rfl rfl rfl).1),
   (((idkg_load_transcript_idempotent env0 [] [] [] 0 17 t0 sKeyset 1 2 7 7).2
      (fun _ hb => Option.noConfusion hb) rfl rfl rfl).2.2)⟩

/-- C2 (amended): creating a dealing for a `ReshareOfUnmasked` (or
`ReshareOfMasked` / `UnmaskedTimesMasked`) operation whose commitment has no
stored opening fails with `SecretSharesNotFound` and performs no store
write, but it does consume exactly one RNG draw: the per-invocation seed is
drawn before the secret shares are resolved. -/
theorem idkg_create_dealing_missing_opening {τ : Ty} (env : Env τ) (s : LocalCspVault τ)
    (algorithm_id : AlgorithmId) (context_data : List Nat) (dealer_index : NodeIndex)
    (reconstruction_threshold : NumberOfNodes) (receiver_keys : List τ.PK) (c c₂ : τ.C)
    (h : ∀ b, s.canister_sks (env.commitment_key_id c) ≠
      some (CspSecretKey.IDkgCommitmentOpening b)) :
    (idkg_create_dealing env s algorithm_id context_data dealer_index
        reconstruction_threshold receiver_keys (.ReshareOfUnmasked c) =
      .err (.SecretSharesNotFound c) { s with rng_ctr := s.rng_ctr + 1 }) ∧
    (idkg_create_dealing env s algorithm_id context_data dealer_index
        reconstruction_threshold receiver_keys (.ReshareOfMasked c) =
      .err (.SecretSharesNotFound c) { s with rng_ctr := s.rng_ctr + 1 }) ∧
    (idkg_create_dealing env s algorithm_id context_data dealer_index
        reconstruction_threshold receiver_keys (.UnmaskedTimesMasked c c₂) =
      .err (.SecretSharesNotFound c) { s with rng_ctr := s.rng_ctr + 1 }) ∧
    ({ s with rng_ctr := s.rng_ctr + 1 }.sks = s.sks ∧
      { s with rng_ctr := s.rng_ctr + 1 }.canister_sks = s.canister_sks) := by
  have hc := commitment_opening_from_sks_of_not_stored env
    { s with rng_ctr := s.rng_ctr + 1 } c h
  refine ⟨?_, ?_, ?_, rfl, rfl⟩ <;>
    simp only [idkg_create_dealing, drawSeed, get_secret_shares, hc]

/-- Counterexample to C2 as stated: at a concrete input the call fails with
`SecretSharesNotFound` and writes to no store, but the state's RNG counter
has advanced from `0` to `1`, so "performs no RNG draw" is false. -/
theorem idkg_create_dealing_missing_opening_counterexample :
    idkg_create_dealing env0 s0 .ThresholdEcdsaSecp256k1 [] 0 1 []
        (.ReshareOfUnmasked 3) =
      .err (.SecretSharesNotFound 3) { s0 with rng_ctr := 1 } ∧
    ({ s0 with rng_ctr := 1 } : LocalCspVault τ0).rng_ctr ≠ s0.rng_ctr :=
  ⟨rfl, by decide⟩

/-- Witness for the amended C2 at a concrete input. -/
theorem idkg_create_dealing_missing_opening_witness :
    idkg_create_dealing env0 s0 .ThresholdEcdsaSecp256k1 [] 0 1 [] (.ReshareOfMasked 3) =
      .err (.SecretSharesNotFound 3) { s0 with rng_ctr := 1 } :=
  (idkg_create_dealing_missing_opening env0 s0 .ThresholdEcdsaSecp256k1 [] 0 1 [] 3 4
    (fun _ hb => Option.noConfusion hb)).2.1

/-- C3 (amended): `idkg_gen_mega_key_pair` rejects every algorithm other
than `ThresholdEcdsaSecp256k1` with the dedicated `UnsupportedAlgorithm`
error (not a generic failure) and performs no store write, but the seed is
drawn before the algorithm check, so exactly one RNG draw is consumed. -/
theorem idkg_gen_mega_key_pair_unsupported {τ : Ty} (env : Env τ) (s : LocalCspVault τ)
    (algorithm_id : AlgorithmId)
    (h : algorithm_id ≠ AlgorithmId.ThresholdEcdsaSecp256k1) :
    idkg_gen_mega_key_pair env s algorithm_id =
      .err (.UnsupportedAlgorithm algorithm_id) { s with rng_ctr := s.rng_ctr + 1 } ∧
    ({ s with rng_ctr := s.rng_ctr + 1 }.sks = s.sks ∧
      { s with rng_ctr := s.rng_ctr + 1 }.canister_sks = s.canister_sks) := by
  refine ⟨?_, rfl, rfl⟩
  cases algorithm_id <;> first | exact absurd rfl h | rfl

/-- Counterexample to C3 as stated: for `Ed25519` the call fails with the
dedicated error and touches no store, but the RNG counter has advanced from
`0` to `1`, so "before touching the RNG" is false. -/
theorem idkg_gen_mega_key_pair_unsupported_counterexample :
    idkg_gen_mega_key_pair env0 s0 .Ed25519 =
      .err (.UnsupportedAlgorithm .Ed25519) { s0 with rng_ctr := 1 } ∧
    ({ s0 with rng_ctr := 1 } : LocalCspVault τ0).rng_ctr ≠ s0.rng_ctr :=
  ⟨rfl, by decide⟩

/-- Witness for the amended C3 at a concrete input. -/
theorem idkg_gen_mega_key_pair_unsupported_witness :
    idkg_gen_mega_key_pair env0 s0 .EcdsaP256 =
      .err (.UnsupportedAlgorithm .EcdsaP256) { s0 with rng_ctr := 1 } :=
  (idkg_gen_mega_key_pair_unsupported env0 s0 .EcdsaP256 (by decide)).1

/-- C4 (amended): with no opening stored and the key pair found, a
still-inconsistent computation with openings is reported as
`InvalidArguments` with a fixed message — a variant distinct from
`PrivateKeyNotFound`, `SerializationError` and `InternalError`; a
non-consistency primitive-library failure is likewise reported as
`InvalidArguments`, carrying the library-provided diagnostic string (not as
an `InternalError`). -/
theorem idkg_load_transcript_with_openings_error_classification {τ : Ty} (env : Env τ)
    (s : LocalCspVault τ) (dealings : NodeMap τ.D) (openings : NodeMap (NodeMap τ.O))
    (context_data : List Nat) (receiver_index : NodeIndex) (key_id : KeyId)
    (t : IDkgTranscriptInternal τ) (pk : τ.PK) (sk : τ.SK) (e : String)
    (hnone : ∀ b, s.canister_sks (env.commitment_key_id t.combined_commitment.commitment) ≠
      some (CspSecretKey.IDkgCommitmentOpening b))
    (hkeyset : mega_keyset_from_sks env s key_id = .ok (pk, sk)) :
    (env.compute_secret_shares_with_openings dealings openings t context_data receiver_index
        sk pk = .error .InconsistentCommitments →
      idkg_load_transcript_with_openings env s dealings openings context_data receiver_index
        key_id t =
        .err (.InvalidArguments "failed to compute secret shares with the provided openings")
          s) ∧
    (env.compute_secret_shares_with_openings dealings openings t context_data receiver_index
        sk pk = .error (.InternalError e) →
      idkg_load_transcript_with_openings env s dealings openings context_data receiver_index
        key_id t = .err (.InvalidArguments e) s) ∧
    (∀ m₁ m₂ m₃, IDkgLoadTranscriptError.InvalidArguments m₁ ≠ .PrivateKeyNotFound ∧
      IDkgLoadTranscriptError.InvalidArguments m₁ ≠ .InternalError m₂ ∧
      IDkgLoadTranscriptError.InvalidArguments m₁ ≠ .SerializationError m₃) := by
  have hc := commitment_opening_from_sks_of_not_stored env s _ hnone
  refine ⟨?_, ?_, ?_⟩
  · intro hcomp
    simp only [idkg_load_transcript_with_openings, hc, hkeyset, hcomp]
  · intro hcomp
    simp only [idkg_load_transcript_with_openings, hc, hkeyset, hcomp]
  · intro m₁ m₂ m₃
    exact ⟨fun hcon => IDkgLoadTranscriptError.noConfusion hcon,
      fun hcon => IDkgLoadTranscriptError.noConfusion hcon,
      fun hcon => IDkgLoadTranscriptError.noConfusion hcon⟩

/-- Counterexample to C4 as stated: a non-consistency library failure
(diagnostic `"boom"`) is reported as `InvalidArguments "boom"`, which is not
an `InternalError`. -/
theorem idkg_load_with_openings_internal_counterexample :
    idkg_load_transcript_with_openings envIntW sKeyset [] [] [] 0 17 t0 =
      .err (.InvalidArguments "boom") sKeyset ∧
    IDkgLoadTranscriptError.InvalidArguments "boom" ≠
      IDkgLoadTranscriptError.InternalError "boom" :=
  ⟨rfl, fun hcon => IDkgLoadTranscriptError.noConfusion hcon⟩

/-- Witness for the amended C4 at a concrete input. -/
theorem idkg_load_with_openings_error_classification_witness :
    idkg_load_transcript_with_openings envIncW sKeyset [] [] [] 0 17 t0 =
      .err (.InvalidArguments "failed to compute secret shares with the provided openings")
        sKeyset :=
  (idkg_load_transcript_with_openings_error_classification envIncW sKeyset [] [] [] 0 17 t0
    1 2 "x" (fun _ hb => Option.noConfusion hb) rfl).1 rfl

/-- C5: Write-after-success invariant.  On every error return of the four
store-touching operations both secret key stores are unchanged; a
commitment-opening write in the two load operations happens exactly on the
branch where the share computation and its serialization both succeeded, and
a key-pair write in `idkg_gen_mega_key_pair` happens exactly on the branch
where key generation and both serializations succeeded. -/
theorem idkg_store_write_after_success {τ : Ty} (env : Env τ) :
    (∀ (s : LocalCspVault τ) dealings context_data receiver_index key_id t e s',
      idkg_load_transcript env s dealings context_data receiver_index key_id t = .err e s' →
      s'.sks = s.sks ∧ s'.canister_sks = s.canister_sks) ∧
    (∀ (s : LocalCspVault τ) dealings openings context_data receiver_index key_id t e s',
      idkg_load_transcript_with_openings env s dealings openings context_data receiver_index
        key_id t = .err e s' → s'.sks = s.sks ∧ s'.canister_sks = s.canister_sks) ∧
    (∀ (s : LocalCspVault τ) algorithm_id e s',
      idkg_gen_mega_key_pair env s algorithm_id = .err e s' →
      s'.sks = s.sks ∧ s'.canister_sks = s.canister_sks) ∧
    (∀ (s : LocalCspVault τ) algorithm_id context_data dealer_index
        reconstruction_threshold receiver_keys op e s',
      idkg_create_dealing env s algorithm_id context_data dealer_index
        reconstruction_threshold receiver_keys op = .err e s' →
      s'.sks = s.sks ∧ s'.canister_sks = s.canister_sks) ∧
    (∀ (s : LocalCspVault τ) dealings context_data receiver_index key_id t pk sk
        opening opening_bytes,
      (∀ b, s.canister_sks (env.commitment_key_id t.combined_commitment.commitment) ≠
        some (CspSecretKey.IDkgCommitmentOpening b)) →
      mega_keyset_from_sks env s key_id = .ok (pk, sk) →
      env.compute_secret_shares dealings t context_data receiver_index sk pk = .ok opening →
      env.commitment_opening_bytes_try_from opening = .ok opening_bytes →
      idkg_load_transcript env s dealings context_data receiver_index key_id t =
        .ok [] (store_canister_secret_key s (.IDkgCommitmentOpening opening_bytes)
          (env.commitment_key_id t.combined_commitment.commitment))) ∧
    (∀ (s : LocalCspVault τ) dealings openings context_data receiver_index key_id t pk sk
        opening opening_bytes,
      (∀ b, s.canister_sks (env.commitment_key_id t.combined_commitment.commitment) ≠
        some (CspSecretKey.IDkgCommitmentOpening b)) →
      mega_keyset_from_sks env s key_id = .ok (pk, sk) →
      env.compute_secret_shares_with_openings dealings openings t context_data receiver_index
        sk pk = .ok opening →
      env.commitment_opening_bytes_try_from opening = .ok opening_bytes →
      idkg_load_transcript_with_openings env s dealings openings context_data receiver_index
        key_id t =
        .ok () (store_canister_secret_key s (.IDkgCommitmentOpening opening_bytes)
          (env.commitment_key_id t.combined_commitment.commitment))) ∧
    (∀ (s : LocalCspVault τ) pk sk pkb skb,
      env.gen_keypair .K256 (env.rngSeq s.rng_ctr) = .ok (pk, sk) →
      env.mega_public_key_bytes_try_from pk = .ok pkb →
      env.mega_private_key_bytes_try_from sk = .ok skb →
      s.sks (env.mega_key_id pk) = none →
      idkg_gen_mega_key_pair env s .ThresholdEcdsaSecp256k1 =
        .ok pk { s with rng_ctr := s.rng_ctr + 1, sks :=
          fun k => if k = env.mega_key_id pk then some (.MEGaEncryptionK256 ⟨pkb, skb⟩) else s.sks k }) := by
  refine ⟨?_, ?_, ?_, ?_, ?_, ?_, ?_⟩
  · intro s dealings context_data receiver_index key_id t e s' h
    exact idkg_load_transcript_err_stores_unchanged env s dealings context_data
      receiver_index key_id t e s' h
  · intro s dealings openings context_data receiver_index key_id t e s' h
    exact idkg_load_transcript_with_openings_err_stores_unchanged env s dealings openings
      context_data receiver_index key_id t e s' h
  · intro s algorithm_id e s' h
    exact idkg_gen_mega_key_pair_err_stores_unchanged env s algorithm_id e s' h
  · intro s algorithm_id context_data dealer_index reconstruction_threshold receiver_keys
      op e s' h
    exact idkg_create_dealing_err_stores_unchanged env s algorithm_id context_data
      dealer_index reconstruction_threshold receiver_keys op e s' h
  · intro s dealings context_data receiver_index key_id t pk sk opening opening_bytes
      hnone hkeyset hcompute hser
    have hc := commitment_opening_from_sks_of_not_stored env s _ hnone
    simp only [idkg_load_transcript, hc, hkeyset, hcompute, hser]
  · intro s dealings openings context_data receiver_index key_id t pk sk opening
      opening_bytes hnone hkeyset hcompute hser
    have hc := commitment_opening_from_sks_of_not_stored env s _ hnone
    simp only [idkg_load_transcript_with_openings, hc, hkeyset, hcompute, hser]
  · intro s pk sk pkb skb hgen hpkb hskb hfree
    have hfree' : ({ s with rng_ctr := s.rng_ctr + 1 } : LocalCspVault τ).sks
        (env.mega_key_id pk) = none := hfree
    simp only [idkg_gen_mega_key_pair, drawSeed, hgen, Except.mapError, hpkb, hskb,
      store_secret_key_or_abort, hfree']

/-- Witness for C5 at concrete inputs: a failing load leaves the stores of
`s0` unchanged, and a fresh key-pair generation stores the key set. -/
theorem idkg_store_write_after_success_witness :
    (s0.sks = s0.sks ∧ s0.canister_sks = s0.canister_sks) ∧
    idkg_gen_mega_key_pair env0 s0 .ThresholdEcdsaSecp256k1 =
      .ok 0 { s0 with rng_ctr := 1, sks :=
        fun k => if k = 0 then some (.MEGaEncryptionK256 ⟨0, 0⟩) else s0.sks k } :=
  ⟨(idkg_store_write_after_success env0).1 s0 [] [] 0 0 t0 .PrivateKeyNotFound s0 rfl,
   (idkg_store_write_after_success env0).2.2.2.2.2.2 s0 0 0 0 0 rfl rfl rfl rfl⟩

/-- C6: hard not-found error for dependent operations.  `Random` needs no
lookup; `ReshareOfUnmasked` / `ReshareOfMasked` require one stored opening
and `UnmaskedTimesMasked` two; each absent opening makes `get_secret_shares`
(and therefore `idkg_create_dealing`) fail with `SecretSharesNotFound`
identifying the missing commitment, and a non-`Random` operation is never
resolved to the `Random` secret-shares value. -/
theorem get_secret_shares_requirements {τ : Ty} (env : Env τ) (s : LocalCspVault τ)
    (algorithm_id : AlgorithmId) (context_data : List Nat) (dealer_index : NodeIndex)
    (reconstruction_threshold : NumberOfNodes) (receiver_keys : List τ.PK) :
    (get_secret_shares env s .Random = .ok .Random) ∧
    (∀ c : τ.C, (∀ b, s.canister_sks (env.commitment_key_id c) ≠
        some (CspSecretKey.IDkgCommitmentOpening b)) →
      get_secret_shares env s (.ReshareOfUnmasked c) = .error (.SecretSharesNotFound c) ∧
      get_secret_shares env s (.ReshareOfMasked c) = .error (.SecretSharesNotFound c) ∧
      idkg_create_dealing env s algorithm_id context_data dealer_index
        reconstruction_threshold receiver_keys (.ReshareOfUnmasked c) =
        .err (.SecretSharesNotFound c) { s with rng_ctr := s.rng_ctr + 1 }) ∧
    (∀ c₁ c₂ : τ.C, (∀ b, s.canister_sks (env.commitment_key_id c₁) ≠
        some (CspSecretKey.IDkgCommitmentOpening b)) →
      get_secret_shares env s (.UnmaskedTimesMasked c₁ c₂) =
        .error (.SecretSharesNotFound c₁)) ∧
    (∀ (c₁ c₂ : τ.C) (b₁ : τ.OB), s.canister_sks (env.commitment_key_id c₁) =
        some (CspSecretKey.IDkgCommitmentOpening b₁) →
      (∀ b, s.canister_sks (env.commitment_key_id c₂) ≠
        some (CspSecretKey.IDkgCommitmentOpening b)) →
      get_secret_shares env s (.UnmaskedTimesMasked c₁ c₂) =
        .error (.SecretSharesNotFound c₂) ∧
      idkg_create_dealing env s algorithm_id context_data dealer_index
        reconstruction_threshold receiver_keys (.UnmaskedTimesMasked c₁ c₂) =
        .err (.SecretSharesNotFound c₂) { s with rng_ctr := s.rng_ctr + 1 }) ∧
    (∀ op, get_secret_shares env s op = .ok .Random → op = .Random) := by
  refine ⟨rfl, ?_, ?_, ?_, ?_⟩
  · intro c hnone
    have hc := commitment_opening_from_sks_of_not_stored env s c hnone
    have hc' := commitment_opening_from_sks_of_not_stored env
      { s with rng_ctr := s.rng_ctr + 1 } c hnone
    exact ⟨by simp only [get_secret_shares, hc], by simp only [get_secret_shares, hc],
      by simp only [idkg_create_dealing, drawSeed, get_secret_shares, hc']⟩
  · intro c₁ c₂ hnone
    have hc := commitment_opening_from_sks_of_not_stored env s c₁ hnone
    simp only [get_secret_shares, hc]
  · intro c₁ c₂ b₁ hstored hnone
    have h₁ := commitment_opening_from_sks_of_stored env s c₁ b₁ hstored
    have h₂ := commitment_opening_from_sks_of_not_stored env s c₂ hnone
    have h₁' := commitment_opening_from_sks_of_stored env
      { s with rng_ctr := s.rng_ctr + 1 } c₁ b₁ hstored
    have h₂' := commitment_opening_from_sks_of_not_stored env
      { s with rng_ctr := s.rng_ctr + 1 } c₂ hnone
    exact ⟨by simp only [get_secret_shares, h₁, h₂],
      by simp only [idkg_create_dealing, drawSeed, get_secret_shares, h₁', h₂']⟩
  · intro op h
    cases op with
    | Random => rfl
    | ReshareOfMasked c =>
      simp only [get_secret_shares] at h
      split at h <;> [skip; split at h] <;> simp at h
    | ReshareOfUnmasked c =>
      simp only [get_secret_shares] at h
      split at h <;> [skip; split at h] <;> simp at h
    | UnmaskedTimesMasked c₁ c₂ =>
      simp only [get_secret_shares] at h
      split at h
      · simp at h
      · split at h
        · simp at h
        · split at h <;> simp at h

/-- Witness for C6 at concrete inputs: with the opening for commitment `5`
stored and none for commitment `6`, the product operation fails identifying
commitment `6`. -/
theorem get_secret_shares_requirements_witness :
    get_secret_shares env0 sStored (.UnmaskedTimesMasked 5 6) =
      .error (.SecretSharesNotFound 6) ∧
    get_secret_shares env0 s0 (.UnmaskedTimesMasked 5 6) =
      .error (.SecretSharesNotFound 5) :=
  ⟨((get_secret_shares_requirements env0 sStored .ThresholdEcdsaSecp256k1 [] 0 1
      []).2.2.2.1 5 6 11 rfl (fun _ hb => Option.noConfusion hb)).1,
   (get_secret_shares_requirements env0 s0 .ThresholdEcdsaSecp256k1 [] 0 1 []).2.2.1 5 6
     (fun _ hb => Option.noConfusion hb)⟩

/-- C7: on a detected cross-dealer inconsistency the vault draws one fresh
seed (the next element of the RNG stream), asks the primitive library to
generate complaints with exactly that seed, and returns the library's
outcome to the caller; neither secret key store is written on this path. -/
theorem idkg_load_transcript_complaint_path {τ : Ty} (env : Env τ) (s : LocalCspVault τ)
    (dealings : NodeMap τ.D) (context_data : List Nat) (receiver_index : NodeIndex)
    (key_id : KeyId) (t : IDkgTranscriptInternal τ) (pk : τ.PK) (sk : τ.SK)
    (hnone : ∀ b, s.canister_sks (env.commitment_key_id t.combined_commitment.commitment) ≠
      some (CspSecretKey.IDkgCommitmentOpening b))
    (hkeyset : mega_keyset_from_sks env s key_id = .ok (pk, sk))
    (hcompute : env.compute_secret_shares dealings t context_data receiver_index sk pk =
      .error .InconsistentCommitments) :
    idkg_load_transcript env s dealings context_data receiver_index key_id t =
      (match env.generate_complaints dealings context_data receiver_index sk pk
          (env.rngSeq s.rng_ctr) with
        | .ok complaints => .ok complaints { s with rng_ctr := s.rng_ctr + 1 }
        | .error e => .err e { s with rng_ctr := s.rng_ctr + 1 }) ∧
    ({ s with rng_ctr := s.rng_ctr + 1 }.sks = s.sks ∧
      { s with rng_ctr := s.rng_ctr + 1 }.canister_sks = s.canister_sks) := by
  have hc := commitment_opening_from_sks_of_not_stored env s _ hnone
  refine ⟨?_, rfl, rfl⟩
  simp only [idkg_load_transcript, hc, hkeyset, hcompute, drawSeed]

/-- Witness for C7 at a concrete input: the environment `envInc` detects an
inconsistency and produces one complaint against dealer `2`, which the load
returns with only the RNG counter advanced. -/
theorem idkg_load_transcript_complaint_path_witness :
    idkg_load_transcript envInc sKeyset [] [] 0 17 t0 =
      .ok [(2, 9)] { sKeyset with rng_ctr := 1 } :=
  (idkg_load_transcript_complaint_path envInc sKeyset [] [] 0 17 t0 1 2
    (fun _ hb => Option.noConfusion hb) rfl rfl).1

/-- C8: no-panic propagation policy.  The two load operations, dealing
creation and dealing opening never abort for any library behaviour or store
contents; every branch of `idkg_gen_mega_key_pair` is enumerated: each
cryptographic or missing-data failure is returned as a typed error, and the
only abort is the duplicate key-pair insert that follows a fully successful
computation and serialization. -/
theorem idkg_no_panic_policy {τ : Ty} (env : Env τ) :
    (∀ (s : LocalCspVault τ) dealings context_data receiver_index key_id t msg,
      idkg_load_transcript env s dealings context_data receiver_index key_id t ≠
        .panic msg) ∧
    (∀ (s : LocalCspVault τ) dealings openings context_data receiver_index key_id t msg,
      idkg_load_transcript_with_openings env s dealings openings context_data receiver_index
        key_id t ≠ .panic msg) ∧
    (∀ (s : LocalCspVault τ) algorithm_id context_data dealer_index
        reconstruction_threshold receiver_keys op msg,
      idkg_create_dealing env s algorithm_id context_data dealer_index
        reconstruction_threshold receiver_keys op ≠ .panic msg) ∧
    (∀ (s : LocalCspVault τ) dealing dealer_index context_data opener_index
        opener_key_id msg,
      idkg_open_dealing env s dealing dealer_index context_data opener_index
        opener_key_id ≠ .panic msg) ∧
    (∀ (s : LocalCspVault τ) algorithm_id,
      algorithm_id ≠ AlgorithmId.ThresholdEcdsaSecp256k1 →
      idkg_gen_mega_key_pair env s algorithm_id =
        .err (.UnsupportedAlgorithm algorithm_id) { s with rng_ctr := s.rng_ctr + 1 }) ∧
    (∀ (s : LocalCspVault τ) e,
      env.gen_keypair .K256 (env.rngSeq s.rng_ctr) = .error e →
      idkg_gen_mega_key_pair env s .ThresholdEcdsaSecp256k1 =
        .err (.FailedKeyGeneration e) { s with rng_ctr := s.rng_ctr + 1 }) ∧
    (∀ (s : LocalCspVault τ) pk sk e,
      env.gen_keypair .K256 (env.rngSeq s.rng_ctr) = .ok (pk, sk) →
      env.mega_public_key_bytes_try_from pk = .error e →
      idkg_gen_mega_key_pair env s .ThresholdEcdsaSecp256k1 =
        .err (.SerializationError e) { s with rng_ctr := s.rng_ctr + 1 }) ∧
    (∀ (s : LocalCspVault τ) pk sk pkb e,
      env.gen_keypair .K256 (env.rngSeq s.rng_ctr) = .ok (pk, sk) →
      env.mega_public_key_bytes_try_from pk = .ok pkb →
      env.mega_private_key_bytes_try_from sk = .error e →
      idkg_gen_mega_key_pair env s .ThresholdEcdsaSecp256k1 =
        .err (.SerializationError e) { s with rng_ctr := s.rng_ctr + 1 }) ∧
    (∀ (s : LocalCspVault τ) pk sk pkb skb,
      env.gen_keypair .K256 (env.rngSeq s.rng_ctr) = .ok (pk, sk) →
      env.mega_public_key_bytes_try_from pk = .ok pkb →
      env.mega_private_key_bytes_try_from sk = .ok skb →
      s.sks (env.mega_key_id pk) = none →
      idkg_gen_mega_key_pair env s .ThresholdEcdsaSecp256k1 =
        .ok pk { s with rng_ctr := s.rng_ctr + 1, sks :=
          fun k => if k = env.mega_key_id pk then some (.MEGaEncryptionK256 ⟨pkb, skb⟩) else s.sks k }) ∧
    (∀ (s : LocalCspVault τ) pk sk pkb skb v,
      env.gen_keypair .K256 (env.rngSeq s.rng_ctr) = .ok (pk, sk) →
      env.mega_public_key_bytes_try_from pk = .ok pkb →
      env.mega_private_key_bytes_try_from sk = .ok skb →
      s.sks (env.mega_key_id pk) = some v →
      idkg_gen_mega_key_pair env s .ThresholdEcdsaSecp256k1 =
        .panic "store_secret_key_or_panic: duplicate key id") := by
  refine ⟨?_, ?_, ?_, ?_, ?_, ?_, ?_, ?_, ?_, ?_⟩
  · intro s dealings context_data receiver_index key_id t msg h
    simp only [idkg_load_transcript, drawSeed] at h
    repeat' split at h
    all_goals cases h
  · intro s dealings openings context_data receiver_index key_id t msg h
    simp only [idkg_load_transcript_with_openings, drawSeed] at h
    repeat' split at h
    all_goals cases h
  · intro s algorithm_id context_data dealer_index reconstruction_threshold receiver_keys
      op msg h
    simp only [idkg_create_dealing, drawSeed] at h
    repeat' split at h
    all_goals cases h
  · intro s dealing dealer_index context_data opener_index opener_key_id msg h
    simp only [idkg_open_dealing] at h
    repeat' split at h
    all_goals cases h
  · intro s algorithm_id h
    cases algorithm_id <;> first | exact absurd rfl h | rfl
  · intro s e hgen
    simp only [idkg_gen_mega_key_pair, drawSeed, hgen, Except.mapError]
  · intro s pk sk e hgen hpkb
    simp only [idkg_gen_mega_key_pair, drawSeed, hgen, Except.mapError, hpkb]
  · intro s pk sk pkb e hgen hpkb hskb
    simp only [idkg_gen_mega_key_pair, drawSeed, hgen, Except.mapError, hpkb, hskb]
  · intro s pk sk pkb skb hgen hpkb hskb hfree
    have hfree' : ({ s with rng_ctr := s.rng_ctr + 1 } : LocalCspVault τ).sks
        (env.mega_key_id pk) = none := hfree
    simp only [idkg_gen_mega_key_pair, drawSeed, hgen, Except.mapError, hpkb, hskb,
      store_secret_key_or_abort, hfree']
  · intro s pk sk pkb skb v hgen hpkb hskb hdup
    have hdup' : ({ s with rng_ctr := s.rng_ctr + 1 } : LocalCspVault τ).sks
        (env.mega_key_id pk) = some v := hdup
    simp only [idkg_gen_mega_key_pair, drawSeed, hgen, Except.mapError, hpkb, hskb,
      store_secret_key_or_abort, hdup']

/-- Witness for C8 at concrete inputs: with the target key id already
occupied the generation aborts; with a failing key generation it returns the
typed `FailedKeyGeneration` error. -/
theorem idkg_no_panic_policy_witness :
    idkg_gen_mega_key_pair env0 sDup .ThresholdEcdsaSecp256k1 =
      .panic "store_secret_key_or_panic: duplicate key id" ∧
    idkg_gen_mega_key_pair envGenFail s0 .ThresholdEcdsaSecp256k1 =
      .err (.FailedKeyGeneration "ec fail") { s0 with rng_ctr := 1 } :=
  ⟨(idkg_no_panic_policy env0).2.2.2.2.2.2.2.2.2 sDup 0 0 0 0 (.OtherVariant 99)
      rfl rfl rfl rfl,
   (idkg_no_panic_policy envGenFail).2.2.2.2.2.1 s0 "ec fail" rfl⟩

/-- C9: transcript creation is pure and deterministic: the facade's
`idkg_create_transcript` returns the same result from any two vault states,
leaves the state (stores and RNG counter) unchanged, and is the direct
delegation of the primitive library's `create_transcript` with its error
wrapped. -/
theorem idkg_create_transcript_pure {τ : Ty} (env : Env τ)
    (algorithm_id : AlgorithmId) (reconstruction_threshold : NumberOfNodes)
    (verified_dealings : NodeMap τ.D) (operation_mode : IDkgTranscriptOperationInternal τ)
    (s₁ s₂ : LocalCspVault τ) :
    ((idkg_create_transcript env s₁ algorithm_id reconstruction_threshold verified_dealings
        operation_mode).1 =
      (idkg_create_transcript env s₂ algorithm_id reconstruction_threshold verified_dealings
        operation_mode).1) ∧
    ((idkg_create_transcript env s₁ algorithm_id reconstruction_threshold verified_dealings
        operation_mode).2 = s₁) ∧
    ((idkg_create_transcript env s₁ algorithm_id reconstruction_threshold verified_dealings
        operation_mode).1 =
      (env.create_transcript algorithm_id reconstruction_threshold verified_dealings
        operation_mode).mapError (fun e => .InternalError e)) :=
  ⟨rfl, rfl, rfl⟩

/-- C10: wrong-variant store entries behave exactly as absent entries:
`commitment_opening_from_sks` yields `SecretSharesNotFound` and
`mega_keyset_from_sks` yields `PrivateKeyNotFound` both when the looked-up
entry is missing and when it exists with the wrong variant. -/
theorem wrong_variant_entries_behave_as_absent {τ : Ty} (env : Env τ)
    (s : LocalCspVault τ) (c : τ.C) (key_id : KeyId) :
    (∀ v, s.canister_sks (env.commitment_key_id c) = some v →
      (∀ b, v ≠ CspSecretKey.IDkgCommitmentOpening b) →
      commitment_opening_from_sks env s c = .error (.SecretSharesNotFound c)) ∧
    (s.canister_sks (env.commitment_key_id c) = none →
      commitment_opening_from_sks env s c = .error (.SecretSharesNotFound c)) ∧
    (∀ v, s.sks key_id = some v → (∀ ks, v ≠ CspSecretKey.MEGaEncryptionK256 ks) →
      mega_keyset_from_sks env s key_id = .error .PrivateKeyNotFound) ∧
    (s.sks key_id = none → mega_keyset_from_sks env s key_id = .error .PrivateKeyNotFound) := by
  refine ⟨?_, ?_, ?_, ?_⟩
  · intro v hv hnot
    refine commitment_opening_from_sks_of_not_stored env s c ?_
    intro b hb
    rw [hv] at hb
    exact hnot b (Option.some.inj hb)
  · intro hv
    refine commitment_opening_from_sks_of_not_stored env s c ?_
    intro b hb
    rw [hv] at hb
    exact Option.noConfusion hb
  · intro v hv hnot
    refine mega_keyset_from_sks_of_absent env s key_id ?_
    intro ks hb
    rw [hv] at hb
    exact hnot ks (Option.some.inj hb)
  · intro hv
    refine mega_keyset_from_sks_of_absent env s key_id ?_
    intro ks hb
    rw [hv] at hb
    exact Option.noConfusion hb

/-- Witness for C10 at concrete inputs: a key set stored under the
commitment's key id and an opening stored under the key pair's key id are
both treated as absent. -/
theorem wrong_variant_entries_witness :
    commitment_opening_from_sks env0 sWrong 5 = .error (.SecretSharesNotFound 5) ∧
    mega_keyset_from_sks env0 sWrong 17 = .error .PrivateKeyNotFound :=
  ⟨(wrong_variant_entries_behave_as_absent env0 sWrong 5 17).1
      (.MEGaEncryptionK256 ⟨1, 2⟩) rfl (fun _ hb => CspSecretKey.noConfusion hb),
   (wrong_variant_entries_behave_as_absent env0 sWrong 5 17).2.2.1
      (.IDkgCommitmentOpening 11) rfl (fun _ hb => CspSecretKey.noConfusion hb)⟩

end IC
